import Mathlib

/-!
Verification of the single-instance coordination, deep-link handoff and
auth-dispatch logic of the Tamshai unified Windows client, shallowly embedded
from `src/clients/unified/windows`.

The embedding models:
* the single IPC handoff file (`%TEMP%\tamshai_ai_callback_url.txt`) as an
  `Option String` (its content, `none` when absent);
* the named single-instance mutex as an outcome of `CreateMutexW` plus a
  trace model of concurrent launches;
* React promises as a `PromiseOutcome` value (`resolved` / `rejectedWith`);
* the UI dispatcher queue and the `WebAuthenticationBroker` call as explicit
  data describing on which execution context the broker call would run and
  which promise actions are performed.

File-system opens are modelled as succeeding (the failure branches of the C++
guard only against OS-level errors and otherwise leave the state unchanged).
-/

namespace Tamshai

/-- Outcome of a React promise: the module either resolves it with a string
value or rejects it with a reason string. -/
inductive PromiseOutcome where
  | resolved (value : String)
  | rejectedWith (reason : String)
deriving DecidableEq, Repr

/-- Role of a process instance as decided at startup. -/
inductive InstanceRole where
  | primary
  | secondary
deriving DecidableEq, Repr

/-- Content of the single IPC handoff file; `none` means the file is absent. -/
abbrev IpcFile := Option String

/-- Model of one `std::getline` on the file content: the first line
(characters up to the first newline). -/
def getlineFirst (s : String) : String :=
  (s.toList.takeWhile (fun c => c != '\n')).asString

namespace Win32

/-- `GetIpcFilePath` (TamshaiAiUnified.cpp:35): temp path plus the fixed
file name. -/
def GetIpcFilePath (tempPath : String) : String :=
  tempPath ++ "tamshai_ai_callback_url.txt"

/-- `WriteUrlToIpcFile` (TamshaiAiUnified.cpp:42): truncate-open and write the
URL as the whole content. -/
def WriteUrlToIpcFile (url : String) (_fs : IpcFile) : IpcFile :=
  some url

/-- `ReadUrlFromIpcFile` (TamshaiAiUnified.cpp:55): if the file opens, read
the first line with `getline`, delete the file, and return the line; if the
file is absent the local `url` stays empty and the file system is untouched. -/
def ReadUrlFromIpcFile : IpcFile → String × IpcFile
  | none => ("", none)
  | some content => (getlineFirst content, none)

/-- `DeepLinkModule::getInitialURL` (TamshaiAiUnified.cpp:85): resolve the
global slot if non-empty, else resolve the empty string; the slot itself is
not modified. -/
def getInitialURL (g_initialUrl : String) : PromiseOutcome :=
  if g_initialUrl ≠ "" then PromiseOutcome.resolved g_initialUrl
  else PromiseOutcome.resolved ""

/-- `DeepLinkModule::clearInitialURL` (TamshaiAiUnified.cpp:95): clear the
global slot. -/
def clearInitialURL (_g_initialUrl : String) : String := ""

/-- `DeepLinkModule::checkForCallbackUrl` (TamshaiAiUnified.cpp:102): read the
IPC file and resolve the URL if non-empty, otherwise resolve the empty
string; never rejects. -/
def checkForCallbackUrl (fs : IpcFile) : PromiseOutcome × IpcFile :=
  let r := ReadUrlFromIpcFile fs
  if r.1 ≠ "" then (PromiseOutcome.resolved r.1, r.2)
  else (PromiseOutcome.resolved "", r.2)

/-- The literal scheme the command-line fallback searches for
(TamshaiAiUnified.cpp:604). -/
def schemeChars : List Char := "com.tamshai.ai://".toList

/-- Model of `needle.isPrefixOf hay` character by character. -/
def startsWithL : List Char → List Char → Bool
  | [], _ => true
  | _ :: _, [] => false
  | a :: as, b :: bs => a == b && startsWithL as bs

/-- Model of `std::string::find(needle) != npos`: the needle occurs as a
contiguous substring of the haystack. -/
def hasSub (needle : List Char) : List Char → Bool
  | [] => startsWithL needle []
  | c :: rest => startsWithL needle (c :: rest) || hasSub needle rest

/-- `cmdLine.find("com.tamshai.ai://") != std::string::npos`
(TamshaiAiUnified.cpp:604). -/
def cmdLineHasScheme (cmdLine : String) : Bool :=
  hasSub schemeChars cmdLine.toList

/-- The extraction logic of `WinMain` (TamshaiAiUnified.cpp:593-613): the
structured activation URL is consulted first; when it is empty and the raw
command-line tail (WinMain's `PSTR commandLine`, which excludes the program
name) is non-empty and contains the scheme anywhere, the entire command-line
tail becomes the protocol URL; otherwise the URL stays empty. -/
def extractProtocolUrl (activationUrl lpCmdLine : String) : String :=
  if activationUrl ≠ "" then activationUrl
  else if lpCmdLine ≠ "" ∧ cmdLineHasScheme lpCmdLine then lpCmdLine
  else ""

/-- Option view of `extractProtocolUrl`: the empty string is the `None`
sentinel of the extractor. -/
def extractOpt (activationUrl lpCmdLine : String) : Option String :=
  if extractProtocolUrl activationUrl lpCmdLine = "" then none
  else some (extractProtocolUrl activationUrl lpCmdLine)

/-- `ERROR_ALREADY_EXISTS` (winerror.h). -/
def ERROR_ALREADY_EXISTS : Nat := 183

/-- Possible outcomes of the `CreateMutexW` call at TamshaiAiUnified.cpp:616:
the mutex was created, it already existed, or creation failed with some other
Win32 error code (e.g. 5 = `ERROR_ACCESS_DENIED`). -/
inductive CreateMutexOutcome where
  | createdNew
  | alreadyExists
  | failed (err : Nat)
deriving DecidableEq, Repr

/-- `GetLastError()` after the `CreateMutexW` call. -/
def lastErrorOf : CreateMutexOutcome → Nat
  | CreateMutexOutcome.createdNew => 0
  | CreateMutexOutcome.alreadyExists => ERROR_ALREADY_EXISTS
  | CreateMutexOutcome.failed err => err

/-- `bool isFirstInstance = (GetLastError() != ERROR_ALREADY_EXISTS)`
(TamshaiAiUnified.cpp:617). -/
def isFirstInstance (o : CreateMutexOutcome) : Bool :=
  lastErrorOf o != ERROR_ALREADY_EXISTS

/-- The instance role the launch sequence assigns: first instance is the
Primary, otherwise Secondary. -/
def instanceRoleOf (o : CreateMutexOutcome) : InstanceRole :=
  if isFirstInstance o then InstanceRole.primary else InstanceRole.secondary

/-- Observable result of the launch sequence of `WinMain`
(TamshaiAiUnified.cpp:554-713). -/
structure LaunchResult where
  role : InstanceRole
  exitedBeforeShell : Bool
  startedShell : Bool
  g_initialUrl : String
  fs : IpcFile
deriving DecidableEq, Repr

/-- The launch decision of `WinMain` (TamshaiAiUnified.cpp:593-713): extract
the protocol URL, create the single-instance mutex, and either hand the URL
to the running instance via the IPC file and return, or store the URL in the
global slot and start the React Native shell.  Note that the early-exit
branch requires a non-empty URL in addition to not being the first
instance, and that no branch deletes the IPC file. -/
def WinMain (mutexOutcome : CreateMutexOutcome) (activationUrl lpCmdLine : String)
    (fs : IpcFile) : LaunchResult :=
  let protocolUrl := extractProtocolUrl activationUrl lpCmdLine
  if isFirstInstance mutexOutcome = false ∧ protocolUrl ≠ "" then
    { role := InstanceRole.secondary
      exitedBeforeShell := true
      startedShell := false
      g_initialUrl := ""
      fs := WriteUrlToIpcFile protocolUrl fs }
  else
    { role := instanceRoleOf mutexOutcome
      exitedBeforeShell := false
      startedShell := true
      g_initialUrl := if protocolUrl ≠ "" then protocolUrl else ""
      fs := fs }

end Win32

namespace Uwp

/-- `GetIpcFilePath` (ReactPackageProvider.cpp:13): temp path plus the fixed
file name. -/
def GetIpcFilePath (tempPath : String) : String :=
  tempPath ++ "tamshai_ai_callback_url.txt"

/-- `ReadUrlFromIpcFile` (ReactPackageProvider.cpp:20): if the file opens,
read the first line, delete the file, and return the line (logging aside);
if the file is absent return the empty string with the file system
untouched. -/
def ReadUrlFromIpcFile : IpcFile → String × IpcFile
  | none => ("", none)
  | some content => (getlineFirst content, none)

/-- `DeepLinkModule::getInitialURL` (ReactPackageProvider.cpp:50): resolve
the global slot if non-empty, else resolve the empty string. -/
def getInitialURL (g_initialUrl : String) : PromiseOutcome :=
  if g_initialUrl ≠ "" then PromiseOutcome.resolved g_initialUrl
  else PromiseOutcome.resolved ""

/-- `DeepLinkModule::clearInitialURL` (ReactPackageProvider.cpp:60): clear
the global slot. -/
def clearInitialURL (_g_initialUrl : String) : String := ""

/-- `DeepLinkModule::checkForCallbackUrl` (ReactPackageProvider.cpp:66):
read the IPC file and resolve the URL if non-empty, otherwise resolve the
empty string; never rejects. -/
def checkForCallbackUrl (fs : IpcFile) : PromiseOutcome × IpcFile :=
  let r := ReadUrlFromIpcFile fs
  if r.1 ≠ "" then (PromiseOutcome.resolved r.1, r.2)
  else (PromiseOutcome.resolved "", r.2)

end Uwp

namespace App

/-- `GetAppIpcFilePath` (App.cpp:20): temp path plus the fixed file name. -/
def GetAppIpcFilePath (tempPath : String) : String :=
  tempPath ++ "tamshai_ai_callback_url.txt"

/-- `WriteUrlToIpcFile` (App.cpp:27): truncate-open and write the URL. -/
def WriteUrlToIpcFile (url : String) (_fs : IpcFile) : IpcFile :=
  some url

/-- `ClearStaleIpcFile` (App.cpp:44): unconditionally delete the IPC file.
The function is defined in App.cpp but no code in the repository calls it. -/
def ClearStaleIpcFile (_fs : IpcFile) : IpcFile :=
  none

end App

/-! ### Trace model of the named single-instance mutex

`CreateMutexW(NULL, TRUE, name)` is an atomic OS operation: the first caller
while no handle to the name is open creates and owns the mutex (Primary);
every caller while a handle is open merely opens a new handle and sees
`ERROR_ALREADY_EXISTS` (Secondary).  The named object lives as long as at
least one handle is open; a process's handles are closed when it exits.  We
model a trace of interleaved launch/exit events (each launch is the atomic
`CreateMutexW` call of one process under the fixed coordination name). -/

/-- OS-level state of the named mutex: the processes holding an open handle
and the live processes whose launch decided Primary. -/
structure CoordState where
  handles : List Nat
  primaries : List Nat
deriving DecidableEq, Repr

/-- Initial state: no handle open, no primary alive. -/
def initCoordState : CoordState := { handles := [], primaries := [] }

/-- One atomic `CreateMutexW` call by process `pid`: creation succeeds and
the process becomes Primary exactly when no handle is currently open;
otherwise the call reports `ERROR_ALREADY_EXISTS` and the process is
Secondary. -/
def acquireRole (s : CoordState) (pid : Nat) : InstanceRole × CoordState :=
  if s.handles.isEmpty then
    (InstanceRole.primary, { handles := [pid], primaries := pid :: s.primaries })
  else
    (InstanceRole.secondary, { handles := pid :: s.handles, primaries := s.primaries })

/-- Events of the coordination trace: an atomic launch (the `CreateMutexW`
call) or a process exit (which closes the process's handle and ends its
Primary role if it had one). -/
inductive MutexEvent where
  | launch (pid : Nat)
  | exitProcess (pid : Nat)
deriving DecidableEq, Repr

/-- One step of the coordination trace. -/
def coordStep (s : CoordState) : MutexEvent → CoordState
  | MutexEvent.launch pid => (acquireRole s pid).2
  | MutexEvent.exitProcess pid =>
      { handles := s.handles.erase pid, primaries := s.primaries.erase pid }

/-- Run a whole trace of events. -/
def runCoord (s : CoordState) (tr : List MutexEvent) : CoordState :=
  tr.foldl coordStep s

/-- Roles received by a batch of processes launching one after another (each
`CreateMutexW` call is atomic, so any concurrent set linearizes into such a
sequence). -/
def assignRoles (s : CoordState) : List Nat → List InstanceRole × CoordState
  | [] => ([], s)
  | pid :: rest =>
      let r := acquireRole s pid
      let rs := assignRoles r.2 rest
      (r.1 :: rs.1, rs.2)

/-! ### Dispatcher model for WebAuthModule -/

/-- Execution contexts on which the broker call could run. -/
inductive ExecContext where
  | mainDispatcher
  | uiDispatcher
  | callerThread
deriving DecidableEq, Repr

/-- Observable result of the dispatch phase of a WebAuthModule method: the
contexts a broker/WinRT task was posted to, and the promise action performed
immediately on the caller's thread (`none` when the promise is left to the
posted task). -/
structure DispatchResult where
  brokerCalls : List ExecContext
  immediate : Option PromiseOutcome
deriving DecidableEq, Repr

namespace Win32

/-- Dispatch phase of `WebAuthModule::authenticate`
(TamshaiAiUnified.cpp:311-465): if `g_mainDispatcherQueue` is null the
promise is rejected immediately (no fallback source is consulted);
otherwise the broker task is enqueued to the main dispatcher, and if
`TryEnqueue` fails the promise is rejected. -/
def authenticateDispatch (hasMainDispatcherQueue enqueueOk : Bool) : DispatchResult :=
  if hasMainDispatcherQueue = false then
    { brokerCalls := []
      immediate := some (PromiseOutcome.rejectedWith "No main thread dispatcher available") }
  else if enqueueOk then
    { brokerCalls := [ExecContext.mainDispatcher], immediate := none }
  else
    { brokerCalls := []
      immediate := some (PromiseOutcome.rejectedWith "Failed to dispatch authenticate to main thread") }

/-- Dispatch phase of `WebAuthModule::getCallbackUri`
(TamshaiAiUnified.cpp:205-291): if `g_mainDispatcherQueue` is null the
module falls back to the ReactContext `UIDispatcher` and posts the task
there, rejecting only if that is also null; otherwise the task is enqueued
to the main dispatcher, and if `TryEnqueue` fails the promise is
rejected. -/
def getCallbackUriDispatch (hasMainDispatcherQueue hasUIDispatcher enqueueOk : Bool) :
    DispatchResult :=
  if hasMainDispatcherQueue = false then
    if hasUIDispatcher then
      { brokerCalls := [ExecContext.uiDispatcher], immediate := none }
    else
      { brokerCalls := []
        immediate := some (PromiseOutcome.rejectedWith "No dispatcher available") }
  else if enqueueOk then
    { brokerCalls := [ExecContext.mainDispatcher], immediate := none }
  else
    { brokerCalls := []
      immediate := some (PromiseOutcome.rejectedWith "Failed to dispatch to main thread") }

end Win32

/-! ### Broker outcome mapping of WebAuthModule::authenticate -/

/-- Terminal statuses of `WebAuthenticationBroker.AuthenticateAsync`. -/
inductive WebAuthenticationStatus where
  | success
  | userCancel
  | errorHttp
  | unknownStatus
deriving DecidableEq, Repr

/-- The result object returned by the broker. -/
structure WebAuthenticationResult where
  responseStatus : WebAuthenticationStatus
  responseData : String
  responseErrorDetail : Nat
deriving DecidableEq, Repr

/-- How the awaited broker call can terminate inside the enqueued task:
normally with a result, or by throwing one of the caught exception kinds. -/
inductive BrokerEvent where
  | completed (r : WebAuthenticationResult)
  | hresultError (msg : String)
  | stdException (what : String)
  | unknownException
deriving DecidableEq, Repr

namespace Win32

/-- The promise actions performed by the task body of
`WebAuthModule::authenticate` (TamshaiAiUnified.cpp:358-455) for each way
the broker call can terminate: the `switch` on `ResponseStatus` and the
three `catch` clauses each perform exactly one `Resolve`/`Reject`. -/
def authenticateTaskActions : BrokerEvent → List PromiseOutcome
  | BrokerEvent.completed r =>
      match r.responseStatus with
      | WebAuthenticationStatus.success => [PromiseOutcome.resolved r.responseData]
      | WebAuthenticationStatus.userCancel =>
          [PromiseOutcome.rejectedWith "User cancelled authentication"]
      | WebAuthenticationStatus.errorHttp =>
          [PromiseOutcome.rejectedWith
            ("HTTP error during authentication: " ++ toString r.responseErrorDetail)]
      | WebAuthenticationStatus.unknownStatus =>
          [PromiseOutcome.rejectedWith "Unknown authentication response status"]
  | BrokerEvent.hresultError msg =>
      [PromiseOutcome.rejectedWith ("WebAuthenticationBroker error: " ++ msg)]
  | BrokerEvent.stdException what => [PromiseOutcome.rejectedWith what]
  | BrokerEvent.unknownException =>
      [PromiseOutcome.rejectedWith "Unknown error during authentication"]

end Win32

/-! ### Poll/consume op sequences on the pending-URL slot -/

/-- Operations the JS layer performs on the pending-URL slot. -/
inductive SlotOp where
  | getOp
  | clearOp
  | setOp (u : String)
deriving DecidableEq, Repr

/-- Run a sequence of slot operations from a given slot value, collecting the
promise outcome of every `getInitialURL` call in order. -/
def runSlot (slot : String) : List SlotOp → String × List PromiseOutcome
  | [] => (slot, [])
  | SlotOp.getOp :: rest =>
      let r := runSlot slot rest
      (r.1, Win32.getInitialURL slot :: r.2)
  | SlotOp.clearOp :: rest => runSlot (Win32.clearInitialURL slot) rest
  | SlotOp.setOp u :: rest => runSlot u rest

/-- Whether a promise outcome is a resolution (as opposed to a rejection). -/
def isResolve : PromiseOutcome → Bool
  | PromiseOutcome.resolved _ => true
  | PromiseOutcome.rejectedWith _ => false

/-! ### Helper lemmas -/

theorem startsWithL_iff (n : List Char) : ∀ h : List Char,
    (Win32.startsWithL n h = true ↔ ∃ t, h = n ++ t) := by
  induction n with
  | nil =>
    intro h
    simp [Win32.startsWithL]
  | cons a as ih =>
    intro h
    cases h with
    | nil => simp [Win32.startsWithL]
    | cons b bs =>
      simp only [Win32.startsWithL, Bool.and_eq_true, beq_iff_eq, ih bs,
        List.cons_append, List.cons.injEq]
      constructor
      · rintro ⟨rfl, t, rfl⟩
        exact ⟨t, rfl, rfl⟩
      · rintro ⟨t, rfl, rfl⟩
        exact ⟨rfl, t, rfl⟩

theorem hasSub_iff (n : List Char) : ∀ h : List Char,
    (Win32.hasSub n h = true ↔ ∃ pre post, h = pre ++ n ++ post) := by
  intro h
  induction h with
  | nil =>
    rw [show Win32.hasSub n [] = Win32.startsWithL n [] from rfl, startsWithL_iff]
    constructor
    · rintro ⟨t, ht⟩
      exact ⟨[], t, ht⟩
    · rintro ⟨pre, post, hp⟩
      cases pre with
      | nil => exact ⟨post, hp⟩
      | cons p ps => simp at hp
  | cons c rest ih =>
    rw [show Win32.hasSub n (c :: rest) =
          (Win32.startsWithL n (c :: rest) || Win32.hasSub n rest) from rfl,
      Bool.or_eq_true, startsWithL_iff, ih]
    constructor
    · rintro (⟨t, ht⟩ | ⟨pre, post, hp⟩)
      · exact ⟨[], t, ht⟩
      · exact ⟨c :: pre, post, by simp [hp]⟩
    · rintro ⟨pre, post, hp⟩
      cases pre with
      | nil => exact Or.inl ⟨post, by simpa using hp⟩
      | cons p ps =>
        obtain ⟨rfl, hr⟩ := List.cons.inj hp
        exact Or.inr ⟨ps, post, hr⟩

theorem takeWhile_of_all {α} (p : α → Bool) :
    ∀ l : List α, (∀ a ∈ l, p a = true) → l.takeWhile p = l
  | [], _ => rfl
  | a :: l, h => by
    have ha := h a (List.mem_cons_self a l)
    have hrest := takeWhile_of_all p l (fun x hx => h x (List.mem_cons_of_mem a hx))
    simp [List.takeWhile_cons, ha, hrest]

theorem asString_toList (s : String) : s.toList.asString = s := rfl

theorem getlineFirst_of_no_newline (s : String) (h : ∀ c ∈ s.toList, c ≠ '\n') :
    getlineFirst s = s := by
  unfold getlineFirst
  rw [takeWhile_of_all _ _ (fun c hc => bne_iff_ne.mpr (h c hc)), asString_toList]

/-- The invariant of the coordination trace: at most one live Primary, and
every live Primary still holds an open handle. -/
def CoordInv (s : CoordState) : Prop :=
  s.primaries.length ≤ 1 ∧ ∀ p ∈ s.primaries, p ∈ s.handles

theorem coordInv_init : CoordInv initCoordState := by
  constructor <;> simp [initCoordState]

theorem coordInv_step (s : CoordState) (e : MutexEvent) (h : CoordInv s) :
    CoordInv (coordStep s e) := by
  obtain ⟨hlen, hmem⟩ := h
  cases e with
  | launch pid =>
    by_cases hh : s.handles.isEmpty
    · have hprim : s.primaries = [] := by
        cases hp : s.primaries with
        | nil => rfl
        | cons q qs =>
          exfalso
          have hq := hmem q (by simp [hp])
          rw [List.isEmpty_iff] at hh
          simp [hh] at hq
      constructor <;> simp [coordStep, acquireRole, hh, hprim, CoordInv]
    · constructor
      · simpa [coordStep, acquireRole, hh] using hlen
      · intro p hp
        simp only [coordStep, acquireRole, hh, if_neg, Bool.false_eq_true,
          if_false] at hp ⊢
        simp at hp ⊢
        exact Or.inr (hmem p hp)
  | exitProcess pid =>
    have hcases : s.primaries = [] ∨ ∃ a, s.primaries = [a] := by
      cases hsp : s.primaries with
      | nil => exact Or.inl rfl
      | cons a rest =>
        cases rest with
        | nil => exact Or.inr ⟨a, rfl⟩
        | cons b bs =>
          rw [hsp] at hlen
          simp [List.length_cons] at hlen
    constructor
    · exact le_trans (List.Sublist.length_le (List.erase_sublist _ _)) hlen
    · intro p hp
      rcases hcases with hnil | ⟨a, ha⟩
      · rw [show (coordStep s (MutexEvent.exitProcess pid)).primaries
              = s.primaries.erase pid from rfl, hnil] at hp
        simp at hp
      · rw [show (coordStep s (MutexEvent.exitProcess pid)).primaries
              = s.primaries.erase pid from rfl, ha, List.erase_cons] at hp
        by_cases hap : a = pid
        · simp [hap] at hp
        · have hfalse : (a == pid) = false := by simp [hap]
          rw [hfalse] at hp
          simp at hp
          subst hp
          have hah : p ∈ s.handles := hmem p (by simp [ha])
          exact (List.mem_erase_of_ne hap).mpr hah

theorem coordInv_run (tr : List MutexEvent) :
    ∀ s : CoordState, CoordInv s → CoordInv (runCoord s tr) := by
  induction tr with
  | nil => intro s h; exact h
  | cons e rest ih =>
    intro s h
    exact ih (coordStep s e) (coordInv_step s e h)

theorem assignRoles_secondary (pids : List Nat) :
    ∀ s : CoordState, s.handles ≠ [] →
      (assignRoles s pids).1 = List.replicate pids.length InstanceRole.secondary := by
  induction pids with
  | nil => intro s _; rfl
  | cons pid rest ih =>
    intro s h
    have hne : s.handles.isEmpty = false := by
      cases hs : s.handles with
      | nil => exact absurd hs h
      | cons a l => rfl
    simp only [assignRoles, acquireRole, hne, Bool.false_eq_true, if_false,
      List.length_cons, List.replicate_succ, List.cons.injEq, true_and]
    exact ih _ (by simp)

theorem assignRoles_first_primary (p : Nat) (rest : List Nat) :
    (assignRoles initCoordState (p :: rest)).1 =
      InstanceRole.primary :: List.replicate rest.length InstanceRole.secondary := by
  simp only [assignRoles, acquireRole, initCoordState, List.isEmpty_nil, if_true,
    List.cons.injEq, true_and]
  exact assignRoles_secondary rest _ (by simp)

theorem runSlot_empty_all_resolve_empty (ops : List SlotOp)
    (h : ∀ u, SlotOp.setOp u ∉ ops) :
    (runSlot "" ops).1 = "" ∧
      ∀ o ∈ (runSlot "" ops).2, o = PromiseOutcome.resolved "" := by
  induction ops with
  | nil => simp [runSlot]
  | cons op rest ih =>
    have hrest : ∀ u, SlotOp.setOp u ∉ rest :=
      fun u hu => h u (List.mem_cons_of_mem _ hu)
    obtain ⟨h1, h2⟩ := ih hrest
    cases op with
    | getOp =>
      constructor
      · simpa [runSlot] using h1
      · intro o ho
        simp only [runSlot, List.mem_cons] at ho
        rcases ho with rfl | ho
        · simp [Win32.getInitialURL]
        · exact h2 o ho
    | clearOp =>
      constructor
      · simpa [runSlot, Win32.clearInitialURL] using h1
      · intro o ho
        exact h2 o ho
    | setOp u => exact absurd (List.mem_cons_self _ _) (h u)

/-! ### Claim theorems -/

/-- C1 counterexample: a launch whose role acquisition yields Secondary (the
mutex already exists) but whose extraction yields no URL does NOT exit; it
proceeds to start the application shell, contradicting the claim that a
Secondary launch never proceeds to start the shell. -/
theorem C1_secondary_no_url_starts_shell :
    (Win32.WinMain Win32.CreateMutexOutcome.alreadyExists "" "" none).role
        = InstanceRole.secondary ∧
    (Win32.WinMain Win32.CreateMutexOutcome.alreadyExists "" "" none).startedShell = true ∧
    (Win32.WinMain Win32.CreateMutexOutcome.alreadyExists "" "" none).exitedBeforeShell
        = false := by
  refine ⟨rfl, rfl, rfl⟩

/-- C1 amended: on every launch in which role acquisition yields Secondary
AND a URL was extracted, the process writes the URL to the IPC file and
exits without starting the application shell; a Secondary launch with no
extracted URL instead proceeds to start the shell. -/
theorem C1_secondary_with_url_hands_off (mo : Win32.CreateMutexOutcome)
    (activationUrl lpCmdLine : String) (fs : IpcFile)
    (hsec : Win32.isFirstInstance mo = false)
    (hurl : Win32.extractProtocolUrl activationUrl lpCmdLine ≠ "") :
    Win32.WinMain mo activationUrl lpCmdLine fs =
      { role := InstanceRole.secondary
        exitedBeforeShell := true
        startedShell := false
        g_initialUrl := ""
        fs := some (Win32.extractProtocolUrl activationUrl lpCmdLine) } := by
  simp [Win32.WinMain, hsec, hurl, Win32.WriteUrlToIpcFile]

theorem C1_secondary_with_url_hands_off_witness :
    Win32.isFirstInstance Win32.CreateMutexOutcome.alreadyExists = false ∧
    Win32.extractProtocolUrl "com.tamshai.ai://callback?code=xyz" "" ≠ "" ∧
    Win32.WinMain Win32.CreateMutexOutcome.alreadyExists "com.tamshai.ai://callback?code=xyz" "" none =
      { role := InstanceRole.secondary
        exitedBeforeShell := true
        startedShell := false
        g_initialUrl := ""
        fs := some (Win32.extractProtocolUrl "com.tamshai.ai://callback?code=xyz" "") } :=
  ⟨rfl, by decide,
    C1_secondary_with_url_hands_off Win32.CreateMutexOutcome.alreadyExists
      "com.tamshai.ai://callback?code=xyz" "" none rfl (by decide)⟩

/-- C2: among any non-empty batch of processes whose atomic `CreateMutexW`
calls linearize under the same coordination name starting from no open
handle, exactly the first obtains Primary and every other obtains
Secondary; and along every interleaved trace of launches and exits, at most
one live process holds Primary at any time. -/
theorem C2_exactly_one_primary (pids : List Nat) (hne : pids ≠ [])
    (tr : List MutexEvent) :
    ((assignRoles initCoordState pids).1 =
        InstanceRole.primary ::
          List.replicate (pids.length - 1) InstanceRole.secondary ∧
      (assignRoles initCoordState pids).1.count InstanceRole.primary = 1) ∧
    (runCoord initCoordState tr).primaries.length ≤ 1 := by
  obtain ⟨p, rest, rfl⟩ := List.exists_cons_of_ne_nil hne
  refine ⟨⟨?_, ?_⟩, ?_⟩
  · simpa using assignRoles_first_primary p rest
  · rw [assignRoles_first_primary p rest]
    simp [List.count_cons, List.count_replicate]
  · exact (coordInv_run tr initCoordState coordInv_init).1

theorem C2_exactly_one_primary_witness :
    ([1, 2, 3] : List Nat) ≠ [] ∧
    (((assignRoles initCoordState [1, 2, 3]).1 =
        InstanceRole.primary ::
          List.replicate (([1, 2, 3] : List Nat).length - 1) InstanceRole.secondary ∧
      (assignRoles initCoordState [1, 2, 3]).1.count InstanceRole.primary = 1) ∧
    (runCoord initCoordState
        [MutexEvent.launch 1, MutexEvent.launch 2, MutexEvent.exitProcess 1,
          MutexEvent.launch 3]).primaries.length ≤ 1) :=
  ⟨by decide,
    C2_exactly_one_primary [1, 2, 3] (by decide)
      [MutexEvent.launch 1, MutexEvent.launch 2, MutexEvent.exitProcess 1,
        MutexEvent.launch 3]⟩

/-- C3 counterexample: for a URL containing a newline, `write` stores the
whole URL but `read` (which uses one `getline`) returns only the first
line, so write-then-read does not return the written URL. -/
theorem C3_newline_url_truncated :
    Win32.ReadUrlFromIpcFile
        (Win32.WriteUrlToIpcFile "com.tamshai.ai://a\nb" none)
      = ("com.tamshai.ai://a", none) ∧
    "com.tamshai.ai://a" ≠ "com.tamshai.ai://a\nb" := by
  refine ⟨rfl, by decide⟩

/-- C3 amended: for every URL containing no newline character, `write(url)`
followed immediately by `read()` returns `url` and deletes the file, so a
second immediate `read()` returns the empty sentinel (`None`); `read()`
when the file is absent returns the empty sentinel with no error and
leaves the file system unchanged. -/
theorem C3_write_read_consume (url : String) (fs : IpcFile)
    (hnl : ∀ c ∈ url.toList, c ≠ '\n') :
    Win32.ReadUrlFromIpcFile (Win32.WriteUrlToIpcFile url fs) = (url, none) ∧
    Win32.ReadUrlFromIpcFile
        (Win32.ReadUrlFromIpcFile (Win32.WriteUrlToIpcFile url fs)).2 = ("", none) ∧
    Win32.ReadUrlFromIpcFile none = ("", none) := by
  refine ⟨?_, rfl, rfl⟩
  show (getlineFirst url, (none : IpcFile)) = (url, none)
  rw [getlineFirst_of_no_newline url hnl]

theorem C3_write_read_consume_witness :
    (∀ c ∈ "com.tamshai.ai://callback?code=abc123".toList, c ≠ '\n') ∧
    (Win32.ReadUrlFromIpcFile
        (Win32.WriteUrlToIpcFile "com.tamshai.ai://callback?code=abc123" none)
      = ("com.tamshai.ai://callback?code=abc123", none) ∧
    Win32.ReadUrlFromIpcFile
        (Win32.ReadUrlFromIpcFile
          (Win32.WriteUrlToIpcFile "com.tamshai.ai://callback?code=abc123" none)).2
      = ("", none) ∧
    Win32.ReadUrlFromIpcFile none = ("", none)) :=
  ⟨by decide, C3_write_read_consume "com.tamshai.ai://callback?code=abc123" none (by decide)⟩

/-- C4: the code never calls `ClearStaleIpcFile` (defined at App.cpp:44 with
the comment that it clears the stale IPC file on startup, but invoked from
nowhere), and the `WinMain` launch sequence leaves the IPC file untouched
on the Primary path; so a URL left over from a previous crashed run IS
delivered to the new Primary's first `checkForCallbackUrl` poll, contrary
to the claim.  Had `ClearStaleIpcFile` been called it would have removed
the stale entry. -/
theorem C4_stale_url_delivered :
    (Win32.WinMain Win32.CreateMutexOutcome.createdNew "" ""
        (some "com.tamshai.ai://stale")).fs = some "com.tamshai.ai://stale" ∧
    Win32.checkForCallbackUrl (some "com.tamshai.ai://stale")
      = (PromiseOutcome.resolved "com.tamshai.ai://stale", none) ∧
    App.ClearStaleIpcFile (some "com.tamshai.ai://stale") = none := by
  refine ⟨rfl, ?_, rfl⟩
  decide

/-- C5 counterexample: when `CreateMutexW` fails with an error other than
`ERROR_ALREADY_EXISTS` (here 5 = `ERROR_ACCESS_DENIED`), the launch
sequence computes `isFirstInstance = true` and proceeds as Primary — it
does not fail with any `CoordinationUnavailable` outcome, contradicting
the claim that only a successful creation yields Primary. -/
theorem C5_failure_treated_as_primary :
    Win32.instanceRoleOf (Win32.CreateMutexOutcome.failed 5) = InstanceRole.primary ∧
    Win32.isFirstInstance (Win32.CreateMutexOutcome.failed 5) = true := by
  refine ⟨rfl, rfl⟩

/-- C5 amended: the role computation has no failure outcome at all: the
launch is treated as Secondary exactly when `GetLastError()` equals
`ERROR_ALREADY_EXISTS`, and as Primary (first instance) in every other
case, including every creation failure. -/
theorem C5_role_iff_already_exists : ∀ o : Win32.CreateMutexOutcome,
    (Win32.instanceRoleOf o = InstanceRole.secondary ↔
      Win32.lastErrorOf o = Win32.ERROR_ALREADY_EXISTS) := by
  intro o
  cases o with
  | createdNew => simp [Win32.instanceRoleOf, Win32.isFirstInstance, Win32.lastErrorOf,
      Win32.ERROR_ALREADY_EXISTS]
  | alreadyExists => simp [Win32.instanceRoleOf, Win32.isFirstInstance, Win32.lastErrorOf]
  | failed err =>
    by_cases h : err = Win32.ERROR_ALREADY_EXISTS <;>
      simp [Win32.instanceRoleOf, Win32.isFirstInstance, Win32.lastErrorOf, h]

/-- C6: `getInitialURL` resolves the stored URL (the empty sentinel when
unset) and does not modify the slot, so two calls with no intervening
`clearInitialURL` return the same value both times; and after
`clearInitialURL`, every subsequent `getInitialURL` returns the empty
sentinel as long as no `setOp` stores a new URL. -/
theorem C6_getInitial_pure_until_clear (slot : String) (ops : List SlotOp)
    (hns : ∀ u, SlotOp.setOp u ∉ ops) :
    Win32.getInitialURL slot = PromiseOutcome.resolved slot ∧
    runSlot slot [SlotOp.getOp, SlotOp.getOp] =
      (slot, [Win32.getInitialURL slot, Win32.getInitialURL slot]) ∧
    ∀ o ∈ (runSlot slot (SlotOp.clearOp :: ops)).2, o = PromiseOutcome.resolved "" := by
  refine ⟨?_, rfl, ?_⟩
  · by_cases h : slot = "" <;> simp [Win32.getInitialURL, h]
  · intro o ho
    exact (runSlot_empty_all_resolve_empty ops hns).2 o ho

theorem C6_getInitial_pure_until_clear_witness :
    (∀ u, SlotOp.setOp u ∉ ([SlotOp.getOp, SlotOp.getOp] : List SlotOp)) ∧
    (Win32.getInitialURL "com.tamshai.ai://x" =
        PromiseOutcome.resolved "com.tamshai.ai://x" ∧
      runSlot "com.tamshai.ai://x" [SlotOp.getOp, SlotOp.getOp] =
        ("com.tamshai.ai://x",
          [Win32.getInitialURL "com.tamshai.ai://x",
            Win32.getInitialURL "com.tamshai.ai://x"]) ∧
      ∀ o ∈ (runSlot "com.tamshai.ai://x"
          (SlotOp.clearOp :: [SlotOp.getOp, SlotOp.getOp])).2,
        o = PromiseOutcome.resolved "") :=
  ⟨by intro u; simp,
    C6_getInitial_pure_until_clear "com.tamshai.ai://x"
      [SlotOp.getOp, SlotOp.getOp] (by intro u; simp)⟩

/-- C7 counterexample: when extra text precedes the scheme on the command
line, the fallback scan still fires (it is a substring search, not a prefix
match) and yields the ENTIRE command-line tail, which is not the deep-link
URL. -/
theorem C7_yields_whole_command_line :
    Win32.extractOpt "" "foo com.tamshai.ai://x" = some "foo com.tamshai.ai://x" ∧
    "foo com.tamshai.ai://x" ≠ "com.tamshai.ai://x" := by
  refine ⟨by decide, by decide⟩

/-- C7 amended: when the structured activation path yields no URL, the
fallback performs a literal case-sensitive substring search for the scheme
over the command-line tail (WinMain's `PSTR commandLine`, which excludes
the program name) and yields the entire tail exactly when the tail is
non-empty and the scheme occurs somewhere in it; so for command line
`app.exe com.tamshai.ai://callback?code=abc123` (tail = the URL itself) it
yields exactly `com.tamshai.ai://callback?code=abc123`, and with no
matching substring it yields `None`. -/
theorem C7_command_line_scan (cmd u : String) :
    Win32.extractOpt "" "com.tamshai.ai://callback?code=abc123"
      = some "com.tamshai.ai://callback?code=abc123" ∧
    Win32.extractOpt "" "app.exe" = none ∧
    Win32.extractOpt "" "" = none ∧
    (Win32.extractOpt "" cmd = some u ↔
      u = cmd ∧ cmd ≠ "" ∧
        ∃ pre post, cmd.toList = pre ++ Win32.schemeChars ++ post) := by
  refine ⟨by decide, by decide, by decide, ?_⟩
  by_cases h1 : cmd = ""
  · subst h1
    simp [Win32.extractOpt, Win32.extractProtocolUrl]
  · by_cases h2 : Win32.cmdLineHasScheme cmd = true
    · have hval : Win32.extractOpt "" cmd = some cmd := by
        simp [Win32.extractOpt, Win32.extractProtocolUrl, h1, h2]
      rw [hval]
      simp only [Option.some.injEq]
      constructor
      · intro h
        have hsub : Win32.hasSub Win32.schemeChars cmd.toList = true := h2
        exact ⟨h.symm, h1, (hasSub_iff Win32.schemeChars cmd.toList).mp hsub⟩
      · rintro ⟨hu, _, _⟩
        exact hu.symm
    · have hval : Win32.extractOpt "" cmd = none := by
        simp [Win32.extractOpt, Win32.extractProtocolUrl, h1, h2]
      rw [hval]
      constructor
      · intro h
        exact Option.noConfusion h
      · rintro ⟨_, _, pre, post, hdec⟩
        have hsch : Win32.cmdLineHasScheme cmd = true :=
          (hasSub_iff Win32.schemeChars cmd.toList).mpr ⟨pre, post, hdec⟩
        exact (h2 hsch).elim

/-- C8 counterexample: when the captured main dispatcher queue is
unavailable, `authenticate` rejects immediately without consulting any
fallback dispatcher source, even though the fallback that `getCallbackUri`
uses in the same situation (the ReactContext UIDispatcher) is available. -/
theorem C8_authenticate_has_no_fallback :
    Win32.authenticateDispatch false true =
      { brokerCalls := []
        immediate :=
          some (PromiseOutcome.rejectedWith "No main thread dispatcher available") } ∧
    Win32.getCallbackUriDispatch false true true =
      { brokerCalls := [ExecContext.uiDispatcher], immediate := none } :=
  ⟨rfl, rfl⟩

/-- C8 amended: when the captured main dispatcher queue is unavailable,
`getCallbackUri` attempts the one documented fallback (the ReactContext
UIDispatcher) and rejects only when that is also unavailable, while
`authenticate` rejects immediately with no fallback attempt; in every case
the broker/WinRT call is never attempted on the caller's thread (it runs
only via a dispatcher), so a rejection means the broker call was never
attempted. -/
theorem C8_dispatch_behaviour :
    (∀ enq, Win32.authenticateDispatch false enq =
      { brokerCalls := []
        immediate :=
          some (PromiseOutcome.rejectedWith "No main thread dispatcher available") }) ∧
    (∀ enq, Win32.getCallbackUriDispatch false true enq =
      { brokerCalls := [ExecContext.uiDispatcher], immediate := none }) ∧
    (∀ enq, Win32.getCallbackUriDispatch false false enq =
      { brokerCalls := []
        immediate := some (PromiseOutcome.rejectedWith "No dispatcher available") }) ∧
    (∀ mq ui enq,
      ExecContext.callerThread ∉ (Win32.getCallbackUriDispatch mq ui enq).brokerCalls) ∧
    (∀ mq enq,
      ExecContext.callerThread ∉ (Win32.authenticateDispatch mq enq).brokerCalls) ∧
    (∀ mq enq, (Win32.authenticateDispatch mq enq).immediate ≠ none →
      (Win32.authenticateDispatch mq enq).brokerCalls = []) := by
  refine ⟨?_, ?_, ?_, ?_, ?_, ?_⟩ <;> decide

/-- C9: the task body of `authenticate` performs exactly one promise action
for every way the broker call can terminate: `Success` resolves with the
broker's response data; `UserCancel`, `ErrorHttp` (with the numeric error
detail embedded in the reason) and any unrecognized status each reject
with a fixed human-readable reason; every caught exception also rejects;
the mapping is total, so no broker outcome or exception escapes (nothing
terminates the process), and each path acts on the promise exactly once. -/
theorem C9_broker_outcome_mapped_once :
    (∀ d n, Win32.authenticateTaskActions
        (BrokerEvent.completed ⟨WebAuthenticationStatus.success, d, n⟩)
      = [PromiseOutcome.resolved d]) ∧
    (∀ d n, Win32.authenticateTaskActions
        (BrokerEvent.completed ⟨WebAuthenticationStatus.userCancel, d, n⟩)
      = [PromiseOutcome.rejectedWith "User cancelled authentication"]) ∧
    (∀ d n, Win32.authenticateTaskActions
        (BrokerEvent.completed ⟨WebAuthenticationStatus.errorHttp, d, n⟩)
      = [PromiseOutcome.rejectedWith
          ("HTTP error during authentication: " ++ toString n)]) ∧
    (∀ d n, Win32.authenticateTaskActions
        (BrokerEvent.completed ⟨WebAuthenticationStatus.unknownStatus, d, n⟩)
      = [PromiseOutcome.rejectedWith "Unknown authentication response status"]) ∧
    (∀ msg, Win32.authenticateTaskActions (BrokerEvent.hresultError msg)
      = [PromiseOutcome.rejectedWith ("WebAuthenticationBroker error: " ++ msg)]) ∧
    (∀ what, Win32.authenticateTaskActions (BrokerEvent.stdException what)
      = [PromiseOutcome.rejectedWith what]) ∧
    Win32.authenticateTaskActions BrokerEvent.unknownException
      = [PromiseOutcome.rejectedWith "Unknown error during authentication"] ∧
    (∀ e, (Win32.authenticateTaskActions e).length = 1) := by
  refine ⟨fun d n => rfl, fun d n => rfl, fun d n => rfl, fun d n => rfl,
    fun msg => rfl, fun what => rfl, rfl, ?_⟩
  intro e
  cases e with
  | completed r =>
    obtain ⟨st, d, n⟩ := r
    cases st <;> rfl
  | hresultError msg => rfl
  | stdException what => rfl
  | unknownException => rfl

/-- C10: the Win32 and UWP `DeepLinkModule` implementations are
observationally equivalent: the same fixed IPC file path (also equal to the
path App.cpp uses), identical `getInitialURL` / `clearInitialURL` /
`checkForCallbackUrl` behaviour on every slot and file state, both always
resolve (never reject) with the empty string when no URL is available, and
both delete the IPC file whenever `checkForCallbackUrl` opens it. -/
theorem C10_deeplink_variants_equivalent :
    (∀ tmp, Win32.GetIpcFilePath tmp = Uwp.GetIpcFilePath tmp) ∧
    (∀ tmp, Win32.GetIpcFilePath tmp = App.GetAppIpcFilePath tmp) ∧
    (∀ slot, Win32.getInitialURL slot = Uwp.getInitialURL slot) ∧
    (∀ slot, Win32.clearInitialURL slot = Uwp.clearInitialURL slot) ∧
    (∀ fs, Win32.ReadUrlFromIpcFile fs = Uwp.ReadUrlFromIpcFile fs) ∧
    (∀ fs, Win32.checkForCallbackUrl fs = Uwp.checkForCallbackUrl fs) ∧
    (∀ slot, isResolve (Win32.getInitialURL slot) = true) ∧
    (∀ fs, isResolve (Win32.checkForCallbackUrl fs).1 = true) ∧
    Win32.checkForCallbackUrl none = (PromiseOutcome.resolved "", none) ∧
    (∀ c, (Win32.checkForCallbackUrl (some c)).2 = none ∧
      (Uwp.checkForCallbackUrl (some c)).2 = none) := by
  refine ⟨fun tmp => rfl, fun tmp => rfl, fun slot => rfl, fun slot => rfl,
    fun fs => rfl, fun fs => rfl, ?_, ?_, rfl, ?_⟩
  · intro slot
    by_cases h : slot = "" <;> simp [Win32.getInitialURL, h, isResolve]
  · intro fs
    cases fs with
    | none => rfl
    | some c =>
      simp only [Win32.checkForCallbackUrl, Win32.ReadUrlFromIpcFile]
      split <;> rfl
  · intro c
    constructor <;>
      (simp only [Win32.checkForCallbackUrl, Win32.ReadUrlFromIpcFile,
        Uwp.checkForCallbackUrl, Uwp.ReadUrlFromIpcFile]
       split <;> rfl)

end Tamshai
